import Mathlib

/-!
Shallow embedding of the MQTT modem data collector (src/main.go).

The correlation core of the program is a set of event handlers sharing one
process-wide concurrency-safe map `eventState` (a Go sync.Map) keyed by the
string `senderID + "_" + flagName`.  Each handler decodes the raw payload,
emits a primitive record, updates flags and conditionally derives a
`POWER_PLN` record.  The embedding below mirrors those handlers one for one,
keeping their Go names; `step` is the dispatcher switch of `main`, and `run`
folds it over a list of inbound events.
-/

namespace Modem

/-- Shape of one field of a decoded JSON object as the Go handlers observe it
through a map lookup plus a string type assertion: absent, present but not a
string, or a string value. -/
inductive JField where
  | absent
  | notStr
  | str (s : String)
deriving DecidableEq

/-- Result of json.Unmarshal on the raw MQTT payload, restricted to the two
fields the handlers of src/main.go inspect ("timestamp" and "message"). -/
inductive RawMsg where
  | malformed
  | obj (timestamp : JField) (message : JField)
deriving DecidableEq

/-- The event kinds relevant to the claims (the dispatcher in `main` routes
on the "event" string).  The remaining kinds of main.go are stateless
pass-through handlers of the same shape as TEMPERATURE and play no role in
any claim. -/
inductive Kind where
  | temperature
  | setTemperature
  | powerBackupMode
  | powerRestoreMode
  | alarmMeterDevice
  | clearAlarmMeterDevice
deriving DecidableEq

/-- One inbound MQTT message after `main`'s subscription callback extracted
the sender id from the topic and the event kind from the payload. -/
structure Event where
  sender : String
  kind : Kind
  msg : RawMsg
deriving DecidableEq

/-- The `Value` field of an emitted EventMessage: an integer for the numeric
handlers, or the raw "message" field for TEMPERATURE. -/
inductive RVal where
  | ofInt (n : Int)
  | ofField (f : JField)
deriving DecidableEq

/-- The EventMessage record passed to processAndSaveData / sendDataPoint. -/
structure Rec where
  eventName : String
  tag : String
  value : RVal
  time : Int
  sumber : String
deriving DecidableEq

/-- The `eventState` sync.Map: string keys to stored booleans (the program
only ever stores `true`); `none` means the key is absent. -/
abbrev Store := String → Option Bool

def Store.empty : Store := fun _ => none

/-- `eventState.Store key v`. -/
def Store.store (s : Store) (key : String) (v : Bool) : Store :=
  fun q => if q = key then some v else s q

/-- `eventState.Delete key`. -/
def Store.delete (s : Store) (key : String) : Store :=
  fun q => if q = key then none else s q

/-- Value of a nonempty digit run, as strconv reads it. -/
def digitsVal (cs : List Char) : Nat :=
  cs.foldl (fun a c => a * 10 + (c.toNat - 48)) 0

/-- Models strconv.ParseFloat followed by the int64 conversion, on the
fragment of decimal literals devices actually send: a nonempty digit string
with an optional fractional part; conversion toward zero keeps the integer
part.  (Signs, exponents, hex floats and magnitudes beyond the exactly
representable range are outside the modelled fragment.) -/
def parseTsInt (s : String) : Option Int :=
  let intPart := s.data.takeWhile Char.isDigit
  let rest := s.data.dropWhile Char.isDigit
  if intPart = [] then none
  else
    match rest with
    | [] => some ((digitsVal intPart : Nat) : Int)
    | c :: frac =>
      if c = '.' && frac.all Char.isDigit then some ((digitsVal intPart : Nat) : Int)
      else none

/-- The shared handler prologue on the "timestamp" field: the type assertion
to string, ParseFloat, int64 conversion, and the 10-digit to 13-digit
scale-up `if len(timestampStr) == 10 { timestamp *= 1000 }`. -/
def decodeTsField : JField → Option Int
  | .str s =>
    match parseTsInt s with
    | some n => some (if s.length = 10 then n * 1000 else n)
    | none => none
  | _ => none

/-- Full decode prologue: json.Unmarshal plus `decodeTsField`. -/
def decodeTs : RawMsg → Option Int
  | .malformed => none
  | .obj ts _ => decodeTsField ts

/-- findNumbersInSentences of main.go: the first `\d+` match converted by
strconv.Atoi (which errors, yielding the 0 fallback, past the int64 range). -/
def firstDigitRun : List Char → List Char
  | [] => []
  | c :: cs => if c.isDigit then c :: cs.takeWhile Char.isDigit else firstDigitRun cs

def findNumbersInSentences (s : String) : Int :=
  let ds := firstDigitRun s.data
  if ds = [] then 0
  else
    let v := digitsVal ds
    if v ≤ 9223372036854775807 then (v : Int) else 0

/-- handleClearPowerPlnEvent of main.go (lines 528-603): stores the one-shot
flag for the event, emits POWER_PLN(0) when either one-shot flag is set, and
deletes every one-shot flag that is set. -/
def handleClearPowerPlnEvent (s : Store) (senderID : String) (message : RawMsg)
    (event : Kind) : Store × List Rec :=
  match decodeTs message with
  | none => (s, [])
  | some timestamp =>
    let r0 : Rec := ⟨"POWER_PLN", "power_pln_" ++ senderID, .ofInt 0, timestamp, senderID⟩
    if event = .powerRestoreMode ∨ event = .clearAlarmMeterDevice then
      let s1 := if event = .powerRestoreMode then
          Store.store s (senderID ++ "_POWER_RESTORE_MODE") true
        else
          Store.store s (senderID ++ "_CLEAR_ALARM_METER_DEVICE") true
      let clearAlarmMeterDevice := (s1 (senderID ++ "_CLEAR_ALARM_METER_DEVICE")).getD false
      let powerRestoreMode := (s1 (senderID ++ "_POWER_RESTORE_MODE")).getD false
      if clearAlarmMeterDevice || powerRestoreMode then
        let s2 := if clearAlarmMeterDevice then
            Store.delete s1 (senderID ++ "_CLEAR_ALARM_METER_DEVICE")
          else s1
        let s3 := if powerRestoreMode then
            Store.delete s2 (senderID ++ "_POWER_RESTORE_MODE")
          else s2
        (s3, [r0])
      else (s1, [])
    else (s, [])

/-- handlePowerPln of main.go (lines 463-525): re-decodes the message, on
POWER_BACKUP_MODE / ALARM_METER_DEVICE re-stores the flag and emits
POWER_PLN(1) when both conjunction flags are present; on the two clearing
kinds it delegates to handleClearPowerPlnEvent. -/
def handlePowerPln (s : Store) (senderID : String) (message : RawMsg)
    (event : Kind) : Store × List Rec :=
  match decodeTs message with
  | none => (s, [])
  | some timestamp =>
    let r1 : Rec := ⟨"POWER_PLN", "power_pln_" ++ senderID, .ofInt 1, timestamp, senderID⟩
    if event = .powerBackupMode ∨ event = .alarmMeterDevice then
      let s1 := if event = .powerBackupMode then
          Store.store s (senderID ++ "_POWER_BACKUP_MODE") true
        else
          Store.store s (senderID ++ "_ALARM_METER_DEVICE") true
      let connectionMissing := (s1 (senderID ++ "_ALARM_METER_DEVICE")).getD false
      let powerBackupMode := (s1 (senderID ++ "_POWER_BACKUP_MODE")).getD false
      if connectionMissing && powerBackupMode then (s1, [r1]) else (s1, [])
    else if event = .powerRestoreMode ∨ event = .clearAlarmMeterDevice then
      handleClearPowerPlnEvent s senderID message event
    else (s, [])

/-- checkCombinedConditions of main.go (lines 443-460): load both conjunction
flags; only when both keys are present and hold true is handlePowerPln
invoked. -/
def checkCombinedConditions (s : Store) (senderID : String) (message : RawMsg)
    (event : Kind) : Store × List Rec :=
  match s (senderID ++ "_ALARM_METER_DEVICE"), s (senderID ++ "_POWER_BACKUP_MODE") with
  | some connectionMissing, some powerBackupMode =>
    if connectionMissing && powerBackupMode then
      handlePowerPln s senderID message event
    else (s, [])
  | _, _ => (s, [])

/-- Result of one handler invocation: the new state of `eventState`, the
records emitted (processAndSaveData / sendDataPoint, in order), and whether
the handler hit a Go run-time error (an unchecked type assertion), which
ends the process. -/
structure Out where
  state : Store
  emits : List Rec
  panicked : Bool

/-- handlePowerBackupModeEvent of main.go (lines 266-308).  The guard
`powerBackupMessage != (EventMessage{})` is always true (Status is true), so
the emit-store-check sequence is unconditional after a successful decode. -/
def handlePowerBackupModeEvent (s : Store) (senderID : String) (message : RawMsg) : Out :=
  match decodeTs message with
  | none => ⟨s, [], false⟩
  | some timestamp =>
    let r : Rec := ⟨"POWER_BACKUP_MODE", "power_modem_" ++ senderID, .ofInt 1, timestamp, senderID⟩
    let s1 := Store.store s (senderID ++ "_POWER_BACKUP_MODE") true
    let p := checkCombinedConditions s1 senderID message .powerBackupMode
    ⟨p.1, r :: p.2, false⟩

/-- handlePowerRestoreModeEvent of main.go (lines 311-354). -/
def handlePowerRestoreModeEvent (s : Store) (senderID : String) (message : RawMsg) : Out :=
  match decodeTs message with
  | none => ⟨s, [], false⟩
  | some timestamp =>
    let r : Rec := ⟨"POWER_RESTORE_MODE", "power_modem_" ++ senderID, .ofInt 0, timestamp, senderID⟩
    let s1 := Store.store s (senderID ++ "_POWER_RESTORE_MODE") true
    let p := checkCombinedConditions s1 senderID message .powerRestoreMode
    ⟨p.1, r :: p.2, false⟩

/-- handleAlarmMeterDeviceEvent of main.go (lines 824-866). -/
def handleAlarmMeterDeviceEvent (s : Store) (senderID : String) (message : RawMsg) : Out :=
  match decodeTs message with
  | none => ⟨s, [], false⟩
  | some timestamp =>
    let r : Rec := ⟨"ALARM_METER_DEVICE", "alarm_connection_missing_" ++ senderID, .ofInt 1,
      timestamp, senderID⟩
    let s1 := Store.store s (senderID ++ "_ALARM_METER_DEVICE") true
    let p := checkCombinedConditions s1 senderID message .alarmMeterDevice
    ⟨p.1, r :: p.2, false⟩

/-- handleClearAlarmMeterDeviceEvent of main.go (lines 869-911).  Note: line
906 of the source stores `senderID+"_ALARM_METER_DEVICE"` (not the CLEAR
one-shot key) before calling checkCombinedConditions. -/
def handleClearAlarmMeterDeviceEvent (s : Store) (senderID : String) (message : RawMsg) : Out :=
  match decodeTs message with
  | none => ⟨s, [], false⟩
  | some timestamp =>
    let r : Rec := ⟨"CLEAR_ALARM_METER_DEVICE", "alarm_connection_missing_" ++ senderID, .ofInt 0,
      timestamp, senderID⟩
    let s1 := Store.store s (senderID ++ "_ALARM_METER_DEVICE") true
    let p := checkCombinedConditions s1 senderID message .clearAlarmMeterDevice
    ⟨p.1, r :: p.2, false⟩

/-- handleTemperatureEvent of main.go (lines 217-263): the "message" field is
checked for presence (any type) before the timestamp prologue. -/
def handleTemperatureEvent (s : Store) (senderID : String) (message : RawMsg) : Out :=
  match message with
  | .malformed => ⟨s, [], false⟩
  | .obj tsField msgField =>
    match msgField with
    | .absent => ⟨s, [], false⟩
    | mf =>
      match decodeTsField tsField with
      | none => ⟨s, [], false⟩
      | some timestamp =>
        ⟨s, [⟨"TEMPERATURE", "temperature_" ++ senderID, .ofField mf, timestamp, senderID⟩], false⟩

/-- handleSetTemperatureEvents of main.go (lines 782-821): after the
timestamp prologue it evaluates `msgData["message"].(string)` with no ok
flag (line 808); when the field is absent or not a string this single-value
type assertion is a Go run-time error that ends the process. -/
def handleSetTemperatureEvents (s : Store) (senderID : String) (message : RawMsg) : Out :=
  match message with
  | .malformed => ⟨s, [], false⟩
  | .obj tsField msgField =>
    match decodeTsField tsField with
    | none => ⟨s, [], false⟩
    | some timestamp =>
      match msgField with
      | .str sentence =>
        ⟨s, [⟨"", senderID ++ "_set_temperature", .ofInt (findNumbersInSentences sentence),
          timestamp, senderID⟩], false⟩
      | _ => ⟨s, [], true⟩

/-- The dispatcher switch of `main` (lines 1028-1057), restricted to the
modelled kinds. -/
def step (s : Store) (e : Event) : Out :=
  match e.kind with
  | .temperature => handleTemperatureEvent s e.sender e.msg
  | .setTemperature => handleSetTemperatureEvents s e.sender e.msg
  | .powerBackupMode => handlePowerBackupModeEvent s e.sender e.msg
  | .powerRestoreMode => handlePowerRestoreModeEvent s e.sender e.msg
  | .alarmMeterDevice => handleAlarmMeterDeviceEvent s e.sender e.msg
  | .clearAlarmMeterDevice => handleClearAlarmMeterDeviceEvent s e.sender e.msg

/-- Sequential processing of a list of inbound events. -/
def run (s : Store) : List Event → Store × List Rec
  | [] => (s, [])
  | e :: es =>
    let o := step s e
    let p := run o.state es
    (p.1, o.emits ++ p.2)

/-- Number of POWER_PLN records with the given value in an emission list. -/
def plnCount (rs : List Rec) (v : Int) : Nat :=
  (rs.filter (fun r => r.eventName == "POWER_PLN" && r.value == RVal.ofInt v)).length

/-- The four flag names the correlation engine keys the state store by. -/
inductive Flag where
  | powerBackupMode
  | powerRestoreMode
  | alarmMeterDevice
  | clearAlarmMeterDevice
deriving DecidableEq

def Flag.keySuffix : Flag → String
  | .powerBackupMode => "_POWER_BACKUP_MODE"
  | .powerRestoreMode => "_POWER_RESTORE_MODE"
  | .alarmMeterDevice => "_ALARM_METER_DEVICE"
  | .clearAlarmMeterDevice => "_CLEAR_ALARM_METER_DEVICE"

/-- The state-store key for a sender and flag, exactly as the Go code builds
it: `senderID + "_" + flagName`. -/
def flagKey (senderID : String) (f : Flag) : String :=
  senderID ++ f.keySuffix

def flagList : List Flag :=
  [.powerBackupMode, .powerRestoreMode, .alarmMeterDevice, .clearAlarmMeterDevice]

/-- A well-formed decodable sample payload: `{"timestamp":"1700000000","message":"ok"}`. -/
def sampleMsg : RawMsg := .obj (.str "1700000000") (.str "ok")

/-- The condition under which the code's clear path actually emits
POWER_PLN(0) for an event of the given clearing kind: checkCombinedConditions
gates the call on the two conjunction flags, and the
CLEAR_ALARM_METER_DEVICE handler itself stores the ALARM_METER_DEVICE flag
first (main.go line 906), so for that kind only the POWER_BACKUP_MODE flag is
additionally required. -/
def clearGate (s : Store) (sid : String) : Kind → Bool
  | .powerRestoreMode =>
    (s (flagKey sid .alarmMeterDevice) == some true) &&
      (s (flagKey sid .powerBackupMode) == some true)
  | .clearAlarmMeterDevice => s (flagKey sid .powerBackupMode) == some true
  | _ => false

/-! ### String-key infrastructure

The state store is keyed by the raw concatenation `senderID ++ flagSuffix`;
these lemmas characterise exactly when two such keys coincide. -/

theorem append_eq_append_of_le {α : Type _} {as bs u v : List α}
    (h : as ++ u = bs ++ v) (hle : u.length ≤ v.length) :
    as = bs ++ v.take (v.length - u.length) ∧ u = v.drop (v.length - u.length) := by
  have hv : v.take (v.length - u.length) ++ v.drop (v.length - u.length) = v :=
    List.take_append_drop _ v
  have h2 : as ++ u = (bs ++ v.take (v.length - u.length)) ++ v.drop (v.length - u.length) := by
    rw [List.append_assoc, hv, h]
  have hlu : u.length = (v.drop (v.length - u.length)).length := by
    rw [List.length_drop]; omega
  exact List.append_inj' h2 hlu

@[simp] theorem string_append_right_inj (a : String) {u v : String} :
    a ++ u = a ++ v ↔ u = v := by
  constructor
  · intro h
    have h2 : a.data ++ u.data = a.data ++ v.data := by
      rw [← String.data_append, ← String.data_append, h]
    exact String.ext (List.append_cancel_left h2)
  · intro h; rw [h]

/-- The only way two state-store keys built by the code coincide: either the
sender and flag agree, or one sender id is the other extended by `"_CLEAR"`,
in which case its ALARM_METER_DEVICE key is the other sender's
CLEAR_ALARM_METER_DEVICE key. -/
theorem flagKey_eq_cases {a b : String} {f g : Flag} (h : flagKey a f = flagKey b g) :
    (a = b ∧ f = g) ∨
    (b = a ++ "_CLEAR" ∧ f = .clearAlarmMeterDevice ∧ g = .alarmMeterDevice) ∨
    (a = b ++ "_CLEAR" ∧ f = .alarmMeterDevice ∧ g = .clearAlarmMeterDevice) := by
  have hd : a.data ++ (Flag.keySuffix f).data = b.data ++ (Flag.keySuffix g).data := by
    rw [← String.data_append, ← String.data_append]
    exact congrArg String.data h
  have hclear : ∀ x : String, (x ++ "_CLEAR").data = x.data ++ "_CLEAR".data := fun x =>
    String.data_append x "_CLEAR"
  cases f <;> cases g <;> simp only [Flag.keySuffix] at hd
  case powerBackupMode.powerBackupMode =>
    exact Or.inl ⟨String.ext (List.append_inj' hd rfl).1, rfl⟩
  case powerBackupMode.powerRestoreMode =>
    have := (append_eq_append_of_le hd (by decide)).2
    exact absurd this (by decide)
  case powerBackupMode.alarmMeterDevice =>
    have := (append_eq_append_of_le hd (by decide)).2
    exact absurd this (by decide)
  case powerBackupMode.clearAlarmMeterDevice =>
    have := (append_eq_append_of_le hd (by decide)).2
    exact absurd this (by decide)
  case powerRestoreMode.powerBackupMode =>
    have := (append_eq_append_of_le hd.symm (by decide)).2
    exact absurd this (by decide)
  case powerRestoreMode.powerRestoreMode =>
    exact Or.inl ⟨String.ext (List.append_inj' hd rfl).1, rfl⟩
  case powerRestoreMode.alarmMeterDevice =>
    have := (List.append_inj' hd (by decide)).2
    exact absurd this (by decide)
  case powerRestoreMode.clearAlarmMeterDevice =>
    have := (append_eq_append_of_le hd (by decide)).2
    exact absurd this (by decide)
  case alarmMeterDevice.powerBackupMode =>
    have := (append_eq_append_of_le hd.symm (by decide)).2
    exact absurd this (by decide)
  case alarmMeterDevice.powerRestoreMode =>
    have := (List.append_inj' hd (by decide)).2
    exact absurd this (by decide)
  case alarmMeterDevice.alarmMeterDevice =>
    exact Or.inl ⟨String.ext (List.append_inj' hd rfl).1, rfl⟩
  case alarmMeterDevice.clearAlarmMeterDevice =>
    have h2 := append_eq_append_of_le hd (by decide)
    refine Or.inr (Or.inr ⟨String.ext ?_, rfl, rfl⟩)
    rw [hclear]
    exact h2.1
  case clearAlarmMeterDevice.powerBackupMode =>
    have := (append_eq_append_of_le hd.symm (by decide)).2
    exact absurd this (by decide)
  case clearAlarmMeterDevice.powerRestoreMode =>
    have := (append_eq_append_of_le hd.symm (by decide)).2
    exact absurd this (by decide)
  case clearAlarmMeterDevice.alarmMeterDevice =>
    have h2 := append_eq_append_of_le hd.symm (by decide)
    refine Or.inr (Or.inl ⟨String.ext ?_, rfl, rfl⟩)
    rw [hclear]
    exact h2.1
  case clearAlarmMeterDevice.clearAlarmMeterDevice =>
    exact Or.inl ⟨String.ext (List.append_inj' hd rfl).1, rfl⟩

/-- Same sender: distinct flags give distinct keys. -/
theorem flagKey_inj_same {sid : String} {f g : Flag} (h : flagKey sid f = flagKey sid g) :
    f = g := by
  rcases flagKey_eq_cases h with ⟨_, hfg⟩ | ⟨hb, _, _⟩ | ⟨hb, _, _⟩
  · exact hfg
  · exfalso
    have := congrArg String.length hb
    simp [String.length_append] at this
    exact absurd this (by decide)
  · exfalso
    have := congrArg String.length hb
    simp [String.length_append] at this
    exact absurd this (by decide)

theorem flagKey_ne_same {sid : String} {f g : Flag} (h : f ≠ g) :
    flagKey sid f ≠ flagKey sid g :=
  fun hk => h (flagKey_inj_same hk)

/-! ### Store evaluation lemmas -/

@[simp] theorem store_apply (s : Store) (key q : String) (v : Bool) :
    Store.store s key v q = if q = key then some v else s q := rfl

@[simp] theorem delete_apply (s : Store) (key q : String) :
    Store.delete s key q = if q = key then none else s q := rfl

@[simp] theorem empty_apply (q : String) : Store.empty q = none := rfl

/-! ### Claim theorems -/

/-- Claim C1, counterexample: for sender "A" the sequence
ALARM_METER_DEVICE, POWER_BACKUP_MODE, duplicate POWER_BACKUP_MODE — with no
intervening clearing event — emits POWER_PLN(1) twice, refuting the claimed
at-most-one (edge-triggered) emission. -/
theorem c1_counterexample :
    plnCount (run Store.empty
      [⟨"A", .alarmMeterDevice, sampleMsg⟩,
       ⟨"A", .powerBackupMode, sampleMsg⟩,
       ⟨"A", .powerBackupMode, sampleMsg⟩]).2 1 = 2 := by decide

/-- Claim C2, counterexample: a POWER_RESTORE_MODE event from the empty
state makes its one-shot flag become set, yet no POWER_PLN(0) is emitted,
because checkCombinedConditions gates the clear path on the two conjunction
flags being present; this refutes the claimed conjunction-flag-independent
"iff". -/
theorem c2_counterexample :
    plnCount (step Store.empty ⟨"A", .powerRestoreMode, sampleMsg⟩).emits 0 = 0 ∧
    (step Store.empty ⟨"A", .powerRestoreMode, sampleMsg⟩).state
      ("A" ++ "_POWER_RESTORE_MODE") = some true := by decide

/-- Claim C4, evaluation at the failing input: a CLEAR_ALARM_METER_DEVICE
event for sender "A" from the empty state leaves the ALARM_METER_DEVICE
conjunction key set to true (main.go line 906 stores the wrong key), never
sets the CLEAR_ALARM_METER_DEVICE one-shot key, and emits no POWER_PLN(0) —
the claimed set-flag, disjunction check and emission do not happen. -/
theorem c4_clear_alarm_divergence :
    (step Store.empty ⟨"A", .clearAlarmMeterDevice, sampleMsg⟩).state
      ("A" ++ "_ALARM_METER_DEVICE") = some true ∧
    (step Store.empty ⟨"A", .clearAlarmMeterDevice, sampleMsg⟩).state
      ("A" ++ "_CLEAR_ALARM_METER_DEVICE") = none ∧
    plnCount (step Store.empty ⟨"A", .clearAlarmMeterDevice, sampleMsg⟩).emits 0 = 0 := by
  decide

/-- Claim C5, counterexample: after POWER_BACKUP_MODE, ALARM_METER_DEVICE and
POWER_RESTORE_MODE for sender "A", a following CLEAR_ALARM_METER_DEVICE does
emit one more POWER_PLN(0) (its one-shot flag is set afresh inside
handleClearPowerPlnEvent while the never-deleted conjunction flags keep the
gate open), refuting the claimed absence of further POWER_PLN records. -/
theorem c5_counterexample :
    plnCount (step (run Store.empty
      [⟨"A", .powerBackupMode, sampleMsg⟩,
       ⟨"A", .alarmMeterDevice, sampleMsg⟩,
       ⟨"A", .powerRestoreMode, sampleMsg⟩]).1
      ⟨"A", .clearAlarmMeterDevice, sampleMsg⟩).emits 0 = 1 := by decide

/-- Claim C6, counterexample: sender "x" and sender "x_CLEAR" interfere,
because the key "x" + "_CLEAR_ALARM_METER_DEVICE" is the same string as
"x_CLEAR" + "_ALARM_METER_DEVICE".  With only its own three events, sender
"x_CLEAR" gets two POWER_PLN(1) records; interleaving events of sender "x"
(whose restore path deletes the shared key) changes that to one. -/
theorem c6_counterexample :
    plnCount ((run Store.empty
      [⟨"x_CLEAR", .alarmMeterDevice, sampleMsg⟩,
       ⟨"x_CLEAR", .powerBackupMode, sampleMsg⟩,
       ⟨"x_CLEAR", .powerBackupMode, sampleMsg⟩]).2.filter
        (fun r => r.sumber == "x_CLEAR")) 1 = 2 ∧
    plnCount ((run Store.empty
      [⟨"x_CLEAR", .alarmMeterDevice, sampleMsg⟩,
       ⟨"x_CLEAR", .powerBackupMode, sampleMsg⟩,
       ⟨"x", .powerBackupMode, sampleMsg⟩,
       ⟨"x", .alarmMeterDevice, sampleMsg⟩,
       ⟨"x", .powerRestoreMode, sampleMsg⟩,
       ⟨"x_CLEAR", .powerBackupMode, sampleMsg⟩]).2.filter
        (fun r => r.sumber == "x_CLEAR")) 1 = 1 := by decide

/-- Claim C7, evaluation at the failing input: a SET_TEMPERATURE event whose
payload decodes with a valid timestamp but no "message" field reaches the
unchecked type assertion of main.go line 808 and ends the process instead of
being logged and dropped. -/
theorem c7_set_temperature_divergence :
    (step Store.empty
      ⟨"A", .setTemperature, .obj (.str "1700000000") .absent⟩).panicked = true := by decide

/-- Claim C8: for each of the four correlation-relevant event kinds, a decode
failure (json.Unmarshal error, missing or non-string timestamp, or a
timestamp string that does not parse) leaves the state store completely
unchanged, and nothing is emitted. -/
theorem c8_decode_atomic (s : Store) (sid : String) (m : RawMsg) (k : Kind)
    (hk : k = .powerBackupMode ∨ k = .powerRestoreMode ∨
      k = .alarmMeterDevice ∨ k = .clearAlarmMeterDevice)
    (hm : decodeTs m = none) :
    (step s ⟨sid, k, m⟩).state = s ∧ (step s ⟨sid, k, m⟩).emits = [] := by
  rcases hk with h | h | h | h <;> subst h <;>
    simp [step, handlePowerBackupModeEvent, handlePowerRestoreModeEvent,
      handleAlarmMeterDeviceEvent, handleClearAlarmMeterDeviceEvent, hm]

/-- Claim C8 witness: a malformed POWER_RESTORE_MODE payload leaves the empty
store empty and emits nothing. -/
theorem c8_decode_atomic_witness :
    (step Store.empty ⟨"A", .powerRestoreMode, .malformed⟩).state = Store.empty ∧
    (step Store.empty ⟨"A", .powerRestoreMode, .malformed⟩).emits = [] :=
  c8_decode_atomic Store.empty "A" .malformed .powerRestoreMode (by decide) rfl


/-- handleClearPowerPlnEvent only ever stores `true` and only deletes the two
one-shot keys of the processed sender. -/
theorem hcp_preserves (s : Store) (sid : String) (m : RawMsg) (k : Kind) (q : String)
    (h1 : q ≠ sid ++ "_CLEAR_ALARM_METER_DEVICE") (h2 : q ≠ sid ++ "_POWER_RESTORE_MODE")
    (hq : s q = some true) :
    (handleClearPowerPlnEvent s sid m k).1 q = some true := by
  unfold handleClearPowerPlnEvent
  rcases hdec : decodeTs m with _ | ts <;> simp only [hdec]
  · exact hq
  · repeat' split
    all_goals simp_all [Store.store, Store.delete]

theorem hpp_preserves (s : Store) (sid : String) (m : RawMsg) (k : Kind) (q : String)
    (h1 : q ≠ sid ++ "_CLEAR_ALARM_METER_DEVICE") (h2 : q ≠ sid ++ "_POWER_RESTORE_MODE")
    (hq : s q = some true) :
    (handlePowerPln s sid m k).1 q = some true := by
  unfold handlePowerPln
  rcases hdec : decodeTs m with _ | ts <;> simp only [hdec]
  · exact hq
  · repeat' split
    all_goals try exact hcp_preserves s sid m k q h1 h2 hq
    all_goals simp_all [Store.store, Store.delete]

theorem ccc_preserves (s : Store) (sid : String) (m : RawMsg) (k : Kind) (q : String)
    (h1 : q ≠ sid ++ "_CLEAR_ALARM_METER_DEVICE") (h2 : q ≠ sid ++ "_POWER_RESTORE_MODE")
    (hq : s q = some true) :
    (checkCombinedConditions s sid m k).1 q = some true := by
  unfold checkCombinedConditions
  repeat' split
  all_goals try exact hpp_preserves s sid m k q h1 h2 hq
  all_goals exact hq

/-- No handler ever deletes a key other than the processed sender's two
one-shot keys, and every store writes `true`: a key holding `true` outside
those two keys still holds `true` after any event. -/
theorem step_preserves (s : Store) (e : Event) (q : String)
    (h1 : q ≠ e.sender ++ "_CLEAR_ALARM_METER_DEVICE")
    (h2 : q ≠ e.sender ++ "_POWER_RESTORE_MODE")
    (hq : s q = some true) :
    (step s e).state q = some true := by
  obtain ⟨sid, k, m⟩ := e
  simp only at h1 h2
  cases k <;>
    simp only [step, handleTemperatureEvent, handleSetTemperatureEvents,
      handlePowerBackupModeEvent, handlePowerRestoreModeEvent,
      handleAlarmMeterDeviceEvent, handleClearAlarmMeterDeviceEvent]
  case temperature => repeat' split
                      all_goals exact hq
  case setTemperature => repeat' split
                         all_goals exact hq
  case powerBackupMode =>
    rcases hdec : decodeTs m with _ | ts <;> simp only [hdec]
    · exact hq
    · refine ccc_preserves _ sid m _ q h1 h2 ?_
      simp [Store.store, hq]
  case powerRestoreMode =>
    rcases hdec : decodeTs m with _ | ts <;> simp only [hdec]
    · exact hq
    · refine ccc_preserves _ sid m _ q h1 h2 ?_
      simp [Store.store, hq, h2]
  case alarmMeterDevice =>
    rcases hdec : decodeTs m with _ | ts <;> simp only [hdec]
    · exact hq
    · refine ccc_preserves _ sid m _ q h1 h2 ?_
      simp [Store.store, hq]
  case clearAlarmMeterDevice =>
    rcases hdec : decodeTs m with _ | ts <;> simp only [hdec]
    · exact hq
    · refine ccc_preserves _ sid m _ q h1 h2 ?_
      simp [Store.store, hq]

/-- Claim C10, amended: the only deletions anywhere are of the processed
sender's CLEAR_ALARM_METER_DEVICE and POWER_RESTORE_MODE key strings, so a
sender's POWER_BACKUP_MODE and ALARM_METER_DEVICE flags, once set, survive
every event — provided the sender's id is not another sender's id extended by
"_CLEAR" (otherwise its ALARM_METER_DEVICE key is that sender's CLEAR
one-shot key and is deleted by its clear path). -/
theorem c10_amended (s : Store) (e : Event) (b : String)
    (hb : b ≠ e.sender ++ "_CLEAR")
    (hA : s (flagKey b .alarmMeterDevice) = some true)
    (hB : s (flagKey b .powerBackupMode) = some true) :
    (step s e).state (flagKey b .alarmMeterDevice) = some true ∧
    (step s e).state (flagKey b .powerBackupMode) = some true := by
  constructor
  · refine step_preserves s e _ ?_ ?_ hA
    · intro h
      rcases flagKey_eq_cases (f := Flag.alarmMeterDevice)
        (g := Flag.clearAlarmMeterDevice) h with ⟨_, hfg⟩ | ⟨_, hf, _⟩ | ⟨hab, _, _⟩
      · exact absurd hfg (by decide)
      · exact absurd hf (by decide)
      · exact hb hab
    · intro h
      rcases flagKey_eq_cases (f := Flag.alarmMeterDevice)
        (g := Flag.powerRestoreMode) h with ⟨_, hfg⟩ | ⟨_, hf, _⟩ | ⟨_, _, hg⟩
      · exact absurd hfg (by decide)
      · exact absurd hf (by decide)
      · exact absurd hg (by decide)
  · refine step_preserves s e _ ?_ ?_ hB
    · intro h
      rcases flagKey_eq_cases (f := Flag.powerBackupMode)
        (g := Flag.clearAlarmMeterDevice) h with ⟨_, hfg⟩ | ⟨_, hf, _⟩ | ⟨_, hf, _⟩
      · exact absurd hfg (by decide)
      · exact absurd hf (by decide)
      · exact absurd hf (by decide)
    · intro h
      rcases flagKey_eq_cases (f := Flag.powerBackupMode)
        (g := Flag.powerRestoreMode) h with ⟨_, hfg⟩ | ⟨_, hf, _⟩ | ⟨_, hf, _⟩
      · exact absurd hfg (by decide)
      · exact absurd hf (by decide)
      · exact absurd hf (by decide)

end Modem

namespace Modem

/-- Claim C10, counterexample: sender "x_CLEAR"'s ALARM_METER_DEVICE key is
set, and processing POWER_RESTORE_MODE for sender "x" (whose conjunction
flags are set) deletes it, because that key string is also "x"'s
CLEAR_ALARM_METER_DEVICE one-shot key. -/
theorem c10_counterexample :
    (run Store.empty
      [⟨"x_CLEAR", .alarmMeterDevice, sampleMsg⟩,
       ⟨"x", .powerBackupMode, sampleMsg⟩,
       ⟨"x", .alarmMeterDevice, sampleMsg⟩]).1
      ("x_CLEAR" ++ "_ALARM_METER_DEVICE") = some true ∧
    (run Store.empty
      [⟨"x_CLEAR", .alarmMeterDevice, sampleMsg⟩,
       ⟨"x", .powerBackupMode, sampleMsg⟩,
       ⟨"x", .alarmMeterDevice, sampleMsg⟩,
       ⟨"x", .powerRestoreMode, sampleMsg⟩]).1
      ("x_CLEAR" ++ "_ALARM_METER_DEVICE") = none := by decide

/-- Claim C10 witness: sender "B"'s two conjunction flags survive sender
"A"'s POWER_RESTORE_MODE event. -/
theorem c10_amended_witness :
    (step (Store.store (Store.store Store.empty (flagKey "B" .alarmMeterDevice) true)
        (flagKey "B" .powerBackupMode) true)
      ⟨"A", .powerRestoreMode, sampleMsg⟩).state (flagKey "B" .alarmMeterDevice) = some true ∧
    (step (Store.store (Store.store Store.empty (flagKey "B" .alarmMeterDevice) true)
        (flagKey "B" .powerBackupMode) true)
      ⟨"A", .powerRestoreMode, sampleMsg⟩).state (flagKey "B" .powerBackupMode) = some true :=
  c10_amended _ _ "B" (by decide) (by decide) (by decide)

/-- Claim C1, amended: emission is level-triggered, not edge-triggered — in
any state where both conjunction flags are already set, every further
POWER_BACKUP_MODE or ALARM_METER_DEVICE event with a decodable payload emits
exactly one more POWER_PLN(1) and leaves both flags set, so duplicates
re-emit once per repeat. -/
theorem c1_amended (s : Store) (sid : String) (m : RawMsg) (t : Int) (k : Kind)
    (hm : decodeTs m = some t) (hk : k = .powerBackupMode ∨ k = .alarmMeterDevice)
    (hA : s (flagKey sid .alarmMeterDevice) = some true)
    (hB : s (flagKey sid .powerBackupMode) = some true) :
    plnCount (step s ⟨sid, k, m⟩).emits 1 = 1 ∧
    (step s ⟨sid, k, m⟩).state (flagKey sid .alarmMeterDevice) = some true ∧
    (step s ⟨sid, k, m⟩).state (flagKey sid .powerBackupMode) = some true := by
  simp only [flagKey, Flag.keySuffix] at hA hB ⊢
  rcases hk with h | h <;> subst h <;>
    simp [step, handlePowerBackupModeEvent, handleAlarmMeterDeviceEvent,
      checkCombinedConditions, handlePowerPln, hm, hA, hB, plnCount, List.filter,
      beq_iff_eq]

/-- Claim C3: from the empty correlation state, POWER_BACKUP_MODE then
ALARM_METER_DEVICE for the same sender emits no POWER_PLN(1) on the first
event and exactly one on the second. -/
theorem c3_scenario1 (sid : String) (m₁ m₂ : RawMsg) (t₁ t₂ : Int)
    (h₁ : decodeTs m₁ = some t₁) (h₂ : decodeTs m₂ = some t₂) :
    plnCount (step Store.empty ⟨sid, .powerBackupMode, m₁⟩).emits 1 = 0 ∧
    plnCount (step (step Store.empty ⟨sid, .powerBackupMode, m₁⟩).state
      ⟨sid, .alarmMeterDevice, m₂⟩).emits 1 = 1 := by
  simp [step, handlePowerBackupModeEvent, handleAlarmMeterDeviceEvent,
    checkCombinedConditions, handlePowerPln, h₁, h₂, plnCount, List.filter, beq_iff_eq]

end Modem

namespace Modem

/-- Claim C1 witness: a duplicate POWER_BACKUP_MODE with both flags already
set re-emits exactly one POWER_PLN(1). -/
theorem c1_amended_witness :
    plnCount (step (Store.store (Store.store Store.empty (flagKey "A" .alarmMeterDevice) true)
        (flagKey "A" .powerBackupMode) true) ⟨"A", .powerBackupMode, sampleMsg⟩).emits 1 = 1 ∧
    (step (Store.store (Store.store Store.empty (flagKey "A" .alarmMeterDevice) true)
        (flagKey "A" .powerBackupMode) true) ⟨"A", .powerBackupMode, sampleMsg⟩).state
      (flagKey "A" .alarmMeterDevice) = some true ∧
    (step (Store.store (Store.store Store.empty (flagKey "A" .alarmMeterDevice) true)
        (flagKey "A" .powerBackupMode) true) ⟨"A", .powerBackupMode, sampleMsg⟩).state
      (flagKey "A" .powerBackupMode) = some true :=
  c1_amended _ "A" sampleMsg 1700000000000 .powerBackupMode (by decide) (Or.inl rfl)
    (by decide) (by decide)

/-- Claim C3 witness: Scenario 1 for sender "A" with the sample payload. -/
theorem c3_scenario1_witness :
    plnCount (step Store.empty ⟨"A", .powerBackupMode, sampleMsg⟩).emits 1 = 0 ∧
    plnCount (step (step Store.empty ⟨"A", .powerBackupMode, sampleMsg⟩).state
      ⟨"A", .alarmMeterDevice, sampleMsg⟩).emits 1 = 1 :=
  c3_scenario1 "A" sampleMsg sampleMsg 1700000000000 1700000000000 (by decide) (by decide)

/-- Exhaustive values of an optional boolean, used to case on store reads. -/
theorem optBool_cases (o : Option Bool) : o = none ∨ o = some false ∨ o = some true := by
  rcases o with _ | b
  · exact Or.inl rfl
  · cases b
    · exact Or.inr (Or.inl rfl)
    · exact Or.inr (Or.inr rfl)

/-- Claim C2, amended: POWER_PLN(0) is emitted on a POWER_RESTORE_MODE or
CLEAR_ALARM_METER_DEVICE event iff the checkCombinedConditions gate passes —
for POWER_RESTORE_MODE both conjunction flags must already be present, and
for CLEAR_ALARM_METER_DEVICE (which itself stores the ALARM_METER_DEVICE
flag) the POWER_BACKUP_MODE flag must be present — not iff a one-shot flag
becomes set.  When it fires, every one-shot flag that is set is consumed;
when the gate fails on POWER_RESTORE_MODE, the one-shot flag stays set
without any emission. -/
theorem c2_amended (s : Store) (sid : String) (m : RawMsg) (t : Int) (k : Kind)
    (hm : decodeTs m = some t)
    (hk : k = .powerRestoreMode ∨ k = .clearAlarmMeterDevice)
    (hC : s (flagKey sid .clearAlarmMeterDevice) ≠ some false)
    (hR : s (flagKey sid .powerRestoreMode) ≠ some false) :
    plnCount (step s ⟨sid, k, m⟩).emits 0 = (if clearGate s sid k then 1 else 0) ∧
    (clearGate s sid k = true →
      (step s ⟨sid, k, m⟩).state (flagKey sid .powerRestoreMode) = none ∧
      (step s ⟨sid, k, m⟩).state (flagKey sid .clearAlarmMeterDevice) = none) ∧
    (clearGate s sid k = false → k = .powerRestoreMode →
      (step s ⟨sid, k, m⟩).state (flagKey sid .powerRestoreMode) = some true) := by
  rcases hk with h | h <;> subst h
  · rcases optBool_cases (s (sid ++ "_ALARM_METER_DEVICE")) with hA | hA | hA <;>
    rcases optBool_cases (s (sid ++ "_POWER_BACKUP_MODE")) with hB | hB | hB <;>
    rcases optBool_cases (s (sid ++ "_CLEAR_ALARM_METER_DEVICE")) with hCv | hCv | hCv <;>
    simp_all [step, handlePowerRestoreModeEvent, checkCombinedConditions, handlePowerPln,
      handleClearPowerPlnEvent, clearGate, flagKey, Flag.keySuffix, hm, plnCount,
      List.filter, beq_iff_eq]
  · rcases optBool_cases (s (sid ++ "_POWER_BACKUP_MODE")) with hB | hB | hB <;>
    rcases optBool_cases (s (sid ++ "_POWER_RESTORE_MODE")) with hRv | hRv | hRv <;>
    simp_all [step, handleClearAlarmMeterDeviceEvent, checkCombinedConditions, handlePowerPln,
      handleClearPowerPlnEvent, clearGate, flagKey, Flag.keySuffix, hm, plnCount,
      List.filter, beq_iff_eq]

/-- Claim C5, amended: after Scenario 1, POWER_RESTORE_MODE emits exactly
one POWER_PLN(0); the following CLEAR_ALARM_METER_DEVICE with no new
backup/alarm cycle emits exactly one further POWER_PLN(0) (its one-shot flag
is set afresh while the conjunction flags remain present), and no
POWER_PLN(1). -/
theorem c5_amended (sid : String) (m₁ m₂ m₃ m₄ : RawMsg) (t₁ t₂ t₃ t₄ : Int)
    (h₁ : decodeTs m₁ = some t₁) (h₂ : decodeTs m₂ = some t₂)
    (h₃ : decodeTs m₃ = some t₃) (h₄ : decodeTs m₄ = some t₄) :
    plnCount (step (run Store.empty
        [⟨sid, .powerBackupMode, m₁⟩, ⟨sid, .alarmMeterDevice, m₂⟩]).1
      ⟨sid, .powerRestoreMode, m₃⟩).emits 0 = 1 ∧
    plnCount (step (step (run Store.empty
        [⟨sid, .powerBackupMode, m₁⟩, ⟨sid, .alarmMeterDevice, m₂⟩]).1
      ⟨sid, .powerRestoreMode, m₃⟩).state ⟨sid, .clearAlarmMeterDevice, m₄⟩).emits 0 = 1 ∧
    plnCount (step (step (run Store.empty
        [⟨sid, .powerBackupMode, m₁⟩, ⟨sid, .alarmMeterDevice, m₂⟩]).1
      ⟨sid, .powerRestoreMode, m₃⟩).state ⟨sid, .clearAlarmMeterDevice, m₄⟩).emits 1 = 0 := by
  simp [run, step, handlePowerBackupModeEvent, handleAlarmMeterDeviceEvent,
    handlePowerRestoreModeEvent, handleClearAlarmMeterDeviceEvent,
    checkCombinedConditions, handlePowerPln, handleClearPowerPlnEvent,
    h₁, h₂, h₃, h₄, plnCount, List.filter, beq_iff_eq,
    (by decide : (RVal.ofInt 0 == RVal.ofInt 1) = false),
    (by decide : (RVal.ofInt 1 == RVal.ofInt 0) = false)]

end Modem

namespace Modem

/-- Claim C2 witness: with both conjunction flags present, POWER_RESTORE_MODE
emits one POWER_PLN(0) and consumes the one-shot flags. -/
theorem c2_amended_witness :
    plnCount (step (Store.store (Store.store Store.empty (flagKey "A" .alarmMeterDevice) true)
        (flagKey "A" .powerBackupMode) true) ⟨"A", .powerRestoreMode, sampleMsg⟩).emits 0 =
      (if clearGate (Store.store (Store.store Store.empty (flagKey "A" .alarmMeterDevice) true)
        (flagKey "A" .powerBackupMode) true) "A" .powerRestoreMode then 1 else 0) ∧
    (clearGate (Store.store (Store.store Store.empty (flagKey "A" .alarmMeterDevice) true)
        (flagKey "A" .powerBackupMode) true) "A" .powerRestoreMode = true →
      (step (Store.store (Store.store Store.empty (flagKey "A" .alarmMeterDevice) true)
        (flagKey "A" .powerBackupMode) true) ⟨"A", .powerRestoreMode, sampleMsg⟩).state
        (flagKey "A" .powerRestoreMode) = none ∧
      (step (Store.store (Store.store Store.empty (flagKey "A" .alarmMeterDevice) true)
        (flagKey "A" .powerBackupMode) true) ⟨"A", .powerRestoreMode, sampleMsg⟩).state
        (flagKey "A" .clearAlarmMeterDevice) = none) ∧
    (clearGate (Store.store (Store.store Store.empty (flagKey "A" .alarmMeterDevice) true)
        (flagKey "A" .powerBackupMode) true) "A" .powerRestoreMode = false →
      Kind.powerRestoreMode = Kind.powerRestoreMode →
      (step (Store.store (Store.store Store.empty (flagKey "A" .alarmMeterDevice) true)
        (flagKey "A" .powerBackupMode) true) ⟨"A", .powerRestoreMode, sampleMsg⟩).state
        (flagKey "A" .powerRestoreMode) = some true) :=
  c2_amended _ "A" sampleMsg 1700000000000 .powerRestoreMode (by decide) (Or.inl rfl)
    (by decide) (by decide)

/-- Claim C5 witness: the amended Scenario 3 for sender "A" with the sample
payload. -/
theorem c5_amended_witness :
    plnCount (step (run Store.empty
        [⟨"A", .powerBackupMode, sampleMsg⟩, ⟨"A", .alarmMeterDevice, sampleMsg⟩]).1
      ⟨"A", .powerRestoreMode, sampleMsg⟩).emits 0 = 1 ∧
    plnCount (step (step (run Store.empty
        [⟨"A", .powerBackupMode, sampleMsg⟩, ⟨"A", .alarmMeterDevice, sampleMsg⟩]).1
      ⟨"A", .powerRestoreMode, sampleMsg⟩).state ⟨"A", .clearAlarmMeterDevice, sampleMsg⟩).emits 0 = 1 ∧
    plnCount (step (step (run Store.empty
        [⟨"A", .powerBackupMode, sampleMsg⟩, ⟨"A", .alarmMeterDevice, sampleMsg⟩]).1
      ⟨"A", .powerRestoreMode, sampleMsg⟩).state ⟨"A", .clearAlarmMeterDevice, sampleMsg⟩).emits 1 = 0 :=
  c5_amended "A" sampleMsg sampleMsg sampleMsg sampleMsg
    1700000000000 1700000000000 1700000000000 1700000000000
    (by decide) (by decide) (by decide) (by decide)

/-- Every record emitted by handleClearPowerPlnEvent carries the decoded
timestamp. -/
theorem hcp_time (s : Store) (sid : String) (m : RawMsg) (k : Kind) (T : Int)
    (hm : decodeTs m = some T) :
    ∀ r ∈ (handleClearPowerPlnEvent s sid m k).2, r.time = T := by
  unfold handleClearPowerPlnEvent
  simp only [hm]
  repeat' split
  all_goals simp

theorem hpp_time (s : Store) (sid : String) (m : RawMsg) (k : Kind) (T : Int)
    (hm : decodeTs m = some T) :
    ∀ r ∈ (handlePowerPln s sid m k).2, r.time = T := by
  unfold handlePowerPln
  simp only [hm]
  repeat' split
  all_goals try exact hcp_time s sid m k T hm
  all_goals simp

theorem ccc_time (s : Store) (sid : String) (m : RawMsg) (k : Kind) (T : Int)
    (hm : decodeTs m = some T) :
    ∀ r ∈ (checkCombinedConditions s sid m k).2, r.time = T := by
  unfold checkCombinedConditions
  repeat' split
  all_goals try exact hpp_time s sid m k T hm
  all_goals simp

/-- Every record any handler emits carries the decoded (normalised)
timestamp of the triggering payload. -/
theorem step_time (s : Store) (e : Event) (T : Int) (hd : decodeTs e.msg = some T) :
    ∀ r ∈ (step s e).emits, r.time = T := by
  obtain ⟨sid, k, m⟩ := e
  simp only at hd
  cases k
  case temperature =>
    rcases m with _ | ⟨tsf, mf⟩
    · exact absurd hd (by simp [decodeTs])
    · have hdf : decodeTsField tsf = some T := by simpa [decodeTs] using hd
      cases mf <;> simp [step, handleTemperatureEvent, hdf]
  case setTemperature =>
    rcases m with _ | ⟨tsf, mf⟩
    · exact absurd hd (by simp [decodeTs])
    · have hdf : decodeTsField tsf = some T := by simpa [decodeTs] using hd
      cases mf <;> simp [step, handleSetTemperatureEvents, hdf]
  case powerBackupMode =>
    simp only [step, handlePowerBackupModeEvent, hd]
    intro r hr
    rcases List.mem_cons.mp hr with h | h
    · subst h; rfl
    · exact ccc_time _ sid m _ T hd r h
  case powerRestoreMode =>
    simp only [step, handlePowerRestoreModeEvent, hd]
    intro r hr
    rcases List.mem_cons.mp hr with h | h
    · subst h; rfl
    · exact ccc_time _ sid m _ T hd r h
  case alarmMeterDevice =>
    simp only [step, handleAlarmMeterDeviceEvent, hd]
    intro r hr
    rcases List.mem_cons.mp hr with h | h
    · subst h; rfl
    · exact ccc_time _ sid m _ T hd r h
  case clearAlarmMeterDevice =>
    simp only [step, handleClearAlarmMeterDeviceEvent, hd]
    intro r hr
    rcases List.mem_cons.mp hr with h | h
    · subst h; rfl
    · exact ccc_time _ sid m _ T hd r h

/-- Claim C9: for every successfully decoded event whose timestamp field is
a string parsing as a (modelled decimal) number, every emitted record carries
that value scaled by 1000 when the string is exactly 10 characters long, and
unchanged otherwise. -/
theorem c9_time_normalization (s : Store) (sid : String) (k : Kind) (tsf mf : JField)
    (u : String) (n : Int) (hts : tsf = .str u) (hp : parseTsInt u = some n) :
    ((step s ⟨sid, k, .obj tsf mf⟩).emits.all
      (fun r => r.time == if u.length = 10 then n * 1000 else n)) = true := by
  subst hts
  have hd : decodeTs (.obj (.str u) mf) = some (if u.length = 10 then n * 1000 else n) := by
    simp [decodeTs, decodeTsField, hp]
  rw [List.all_eq_true]
  intro r hr
  rw [beq_iff_eq]
  exact step_time s ⟨sid, k, .obj (.str u) mf⟩ _ hd r hr

/-- Claim C9 witness: a 10-character timestamp string is scaled to epoch
milliseconds. -/
theorem c9_time_normalization_witness :
    ((step Store.empty ⟨"A", .temperature, .obj (.str "1700000000") (.str "ok")⟩).emits.all
      (fun r => r.time == if ("1700000000" : String).length = 10
        then (1700000000 : Int) * 1000 else 1700000000)) = true :=
  c9_time_normalization Store.empty "A" .temperature (.str "1700000000") (.str "ok")
    "1700000000" 1700000000 rfl (by decide)

end Modem

namespace Modem

theorem ite_pair_snd {c : Prop} [Decidable c] {a b : Store × List Rec} :
    (if c then a else b).2 = if c then a.2 else b.2 := by
  split <;> rfl

theorem ite_pair_fst {c : Prop} [Decidable c] {a b : Store × List Rec} :
    (if c then a else b).1 = if c then a.1 else b.1 := by
  split <;> rfl

theorem hcp_sumber (s : Store) (sid : String) (m : RawMsg) (k : Kind) :
    ∀ r ∈ (handleClearPowerPlnEvent s sid m k).2, r.sumber = sid := by
  intro r hr
  unfold handleClearPowerPlnEvent at hr
  repeat' first
    | split at hr
    | simp only [ite_pair_snd] at hr
  all_goals simp_all

theorem hpp_sumber (s : Store) (sid : String) (m : RawMsg) (k : Kind) :
    ∀ r ∈ (handlePowerPln s sid m k).2, r.sumber = sid := by
  intro r hr
  unfold handlePowerPln at hr
  repeat' first
    | split at hr
    | simp only [ite_pair_snd] at hr
  all_goals try exact hcp_sumber s sid m k r hr
  all_goals simp_all

theorem ccc_sumber (s : Store) (sid : String) (m : RawMsg) (k : Kind) :
    ∀ r ∈ (checkCombinedConditions s sid m k).2, r.sumber = sid := by
  intro r hr
  unfold checkCombinedConditions at hr
  repeat' first
    | split at hr
    | simp only [ite_pair_snd] at hr
  all_goals try exact hpp_sumber s sid m k r hr
  all_goals simp_all

/-- Every record emitted while processing an event carries that event's
sender id. -/
theorem step_emits_sumber (s : Store) (e : Event) :
    ∀ r ∈ (step s e).emits, r.sumber = e.sender := by
  obtain ⟨sid, k, m⟩ := e
  cases k <;> simp only [step]
  case temperature =>
    intro r hr
    unfold handleTemperatureEvent at hr
    repeat' split at hr
    all_goals simp_all
  case setTemperature =>
    intro r hr
    unfold handleSetTemperatureEvents at hr
    repeat' split at hr
    all_goals simp_all
  case powerBackupMode =>
    intro r hr
    simp only [handlePowerBackupModeEvent] at hr
    rcases hdec : decodeTs m with _ | ts <;> simp only [hdec] at hr
    · simp at hr
    · rcases List.mem_cons.mp hr with h | h
      · subst h; rfl
      · exact ccc_sumber _ sid m _ r h
  case powerRestoreMode =>
    intro r hr
    simp only [handlePowerRestoreModeEvent] at hr
    rcases hdec : decodeTs m with _ | ts <;> simp only [hdec] at hr
    · simp at hr
    · rcases List.mem_cons.mp hr with h | h
      · subst h; rfl
      · exact ccc_sumber _ sid m _ r h
  case alarmMeterDevice =>
    intro r hr
    simp only [handleAlarmMeterDeviceEvent] at hr
    rcases hdec : decodeTs m with _ | ts <;> simp only [hdec] at hr
    · simp at hr
    · rcases List.mem_cons.mp hr with h | h
      · subst h; rfl
      · exact ccc_sumber _ sid m _ r h
  case clearAlarmMeterDevice =>
    intro r hr
    simp only [handleClearAlarmMeterDeviceEvent] at hr
    rcases hdec : decodeTs m with _ | ts <;> simp only [hdec] at hr
    · simp at hr
    · rcases List.mem_cons.mp hr with h | h
      · subst h; rfl
      · exact ccc_sumber _ sid m _ r h

theorem hcp_frame (s : Store) (sid : String) (m : RawMsg) (k : Kind) (q : String)
    (h2 : q ≠ sid ++ "_POWER_RESTORE_MODE") (h4 : q ≠ sid ++ "_CLEAR_ALARM_METER_DEVICE") :
    (handleClearPowerPlnEvent s sid m k).1 q = s q := by
  unfold handleClearPowerPlnEvent
  repeat' split
  all_goals simp_all [Store.store, Store.delete, ite_apply, ite_pair_fst]

theorem hpp_frame (s : Store) (sid : String) (m : RawMsg) (k : Kind) (q : String)
    (h1 : q ≠ sid ++ "_POWER_BACKUP_MODE") (h2 : q ≠ sid ++ "_POWER_RESTORE_MODE")
    (h3 : q ≠ sid ++ "_ALARM_METER_DEVICE") (h4 : q ≠ sid ++ "_CLEAR_ALARM_METER_DEVICE") :
    (handlePowerPln s sid m k).1 q = s q := by
  unfold handlePowerPln
  repeat' split
  all_goals try exact hcp_frame s sid m k q h2 h4
  all_goals simp_all [Store.store, Store.delete, ite_apply, ite_pair_fst]

theorem ccc_frame (s : Store) (sid : String) (m : RawMsg) (k : Kind) (q : String)
    (h1 : q ≠ sid ++ "_POWER_BACKUP_MODE") (h2 : q ≠ sid ++ "_POWER_RESTORE_MODE")
    (h3 : q ≠ sid ++ "_ALARM_METER_DEVICE") (h4 : q ≠ sid ++ "_CLEAR_ALARM_METER_DEVICE") :
    (checkCombinedConditions s sid m k).1 q = s q := by
  unfold checkCombinedConditions
  repeat' split
  all_goals try exact hpp_frame s sid m k q h1 h2 h3 h4
  all_goals rfl

/-- Processing an event only changes state-store keys of the form
`e.sender ++ flagSuffix`. -/
theorem step_frame (s : Store) (e : Event) (q : String)
    (hq : ∀ f : Flag, q ≠ flagKey e.sender f) :
    (step s e).state q = s q := by
  obtain ⟨sid, k, m⟩ := e
  simp only at hq
  have h1 := hq .powerBackupMode
  have h2 := hq .powerRestoreMode
  have h3 := hq .alarmMeterDevice
  have h4 := hq .clearAlarmMeterDevice
  simp only [flagKey, Flag.keySuffix] at h1 h2 h3 h4
  cases k <;> simp only [step]
  case temperature =>
    unfold handleTemperatureEvent
    repeat' split
    all_goals rfl
  case setTemperature =>
    unfold handleSetTemperatureEvents
    repeat' split
    all_goals rfl
  case powerBackupMode =>
    cases hdec : decodeTs m with
    | none => simp only [handlePowerBackupModeEvent, hdec]
    | some ts =>
      simp only [handlePowerBackupModeEvent, hdec]
      rw [ccc_frame _ sid m _ q h1 h2 h3 h4]
      simp [Store.store, h1]
  case powerRestoreMode =>
    cases hdec : decodeTs m with
    | none => simp only [handlePowerRestoreModeEvent, hdec]
    | some ts =>
      simp only [handlePowerRestoreModeEvent, hdec]
      rw [ccc_frame _ sid m _ q h1 h2 h3 h4]
      simp [Store.store, h2]
  case alarmMeterDevice =>
    cases hdec : decodeTs m with
    | none => simp only [handleAlarmMeterDeviceEvent, hdec]
    | some ts =>
      simp only [handleAlarmMeterDeviceEvent, hdec]
      rw [ccc_frame _ sid m _ q h1 h2 h3 h4]
      simp [Store.store, h3]
  case clearAlarmMeterDevice =>
    cases hdec : decodeTs m with
    | none => simp only [handleClearAlarmMeterDeviceEvent, hdec]
    | some ts =>
      simp only [handleClearAlarmMeterDeviceEvent, hdec]
      rw [ccc_frame _ sid m _ q h1 h2 h3 h4]
      simp [Store.store, h3]

end Modem

namespace Modem

theorem hTemp_state (s : Store) (sid : String) (m : RawMsg) :
    (handleTemperatureEvent s sid m).state = s := by
  unfold handleTemperatureEvent
  repeat' split
  all_goals rfl

theorem hTemp_emits_congr (s t : Store) (sid : String) (m : RawMsg) :
    (handleTemperatureEvent s sid m).emits = (handleTemperatureEvent t sid m).emits := by
  unfold handleTemperatureEvent
  repeat' split
  all_goals rfl

theorem hSet_state (s : Store) (sid : String) (m : RawMsg) :
    (handleSetTemperatureEvents s sid m).state = s := by
  unfold handleSetTemperatureEvents
  repeat' split
  all_goals rfl

theorem hSet_emits_congr (s t : Store) (sid : String) (m : RawMsg) :
    (handleSetTemperatureEvents s sid m).emits = (handleSetTemperatureEvents t sid m).emits := by
  unfold handleSetTemperatureEvents
  repeat' split
  all_goals rfl

/-- handleClearPowerPlnEvent reads and writes only the processed sender's
keys: states agreeing there produce the same emissions and keep agreeing. -/
theorem hcp_congr (s₁ s₂ : Store) (sid : String) (m : RawMsg) (k : Kind)
    (h : ∀ f : Flag, s₁ (flagKey sid f) = s₂ (flagKey sid f)) :
    (handleClearPowerPlnEvent s₁ sid m k).2 = (handleClearPowerPlnEvent s₂ sid m k).2 ∧
    ∀ f : Flag, (handleClearPowerPlnEvent s₁ sid m k).1 (flagKey sid f)
      = (handleClearPowerPlnEvent s₂ sid m k).1 (flagKey sid f) := by
  have h1 := h .powerBackupMode
  have h2 := h .powerRestoreMode
  have h3 := h .alarmMeterDevice
  have h4 := h .clearAlarmMeterDevice
  simp only [flagKey, Flag.keySuffix] at h1 h2 h3 h4
  unfold handleClearPowerPlnEvent
  rcases hdec : decodeTs m with _ | ts <;> simp only [hdec]
  · exact ⟨by trivial, h⟩
  · constructor
    · simp [Store.store, Store.delete, ite_pair_snd, ite_apply, h1, h2, h3, h4]
    · intro f
      cases f <;>
        simp [flagKey, Flag.keySuffix, Store.store, Store.delete, ite_pair_fst,
          ite_apply, h1, h2, h3, h4]

theorem hpp_congr (s₁ s₂ : Store) (sid : String) (m : RawMsg) (k : Kind)
    (h : ∀ f : Flag, s₁ (flagKey sid f) = s₂ (flagKey sid f)) :
    (handlePowerPln s₁ sid m k).2 = (handlePowerPln s₂ sid m k).2 ∧
    ∀ f : Flag, (handlePowerPln s₁ sid m k).1 (flagKey sid f)
      = (handlePowerPln s₂ sid m k).1 (flagKey sid f) := by
  have h1 := h .powerBackupMode
  have h2 := h .powerRestoreMode
  have h3 := h .alarmMeterDevice
  have h4 := h .clearAlarmMeterDevice
  simp only [flagKey, Flag.keySuffix] at h1 h2 h3 h4
  unfold handlePowerPln
  rcases hdec : decodeTs m with _ | ts <;> simp only [hdec]
  · exact ⟨by trivial, h⟩
  · by_cases hk1 : (k = Kind.powerBackupMode ∨ k = Kind.alarmMeterDevice)
    · simp only [if_pos hk1]
      constructor
      · simp [Store.store, ite_pair_snd, ite_apply, h1, h2, h3, h4]
      · intro f
        cases f <;>
          simp [flagKey, Flag.keySuffix, Store.store, ite_pair_fst, ite_apply,
            h1, h2, h3, h4]
    · simp only [if_neg hk1]
      by_cases hk2 : (k = Kind.powerRestoreMode ∨ k = Kind.clearAlarmMeterDevice)
      · simp only [if_pos hk2]
        exact hcp_congr s₁ s₂ sid m k h
      · simp only [if_neg hk2]
        exact ⟨by trivial, h⟩

theorem ccc_congr (s₁ s₂ : Store) (sid : String) (m : RawMsg) (k : Kind)
    (h : ∀ f : Flag, s₁ (flagKey sid f) = s₂ (flagKey sid f)) :
    (checkCombinedConditions s₁ sid m k).2 = (checkCombinedConditions s₂ sid m k).2 ∧
    ∀ f : Flag, (checkCombinedConditions s₁ sid m k).1 (flagKey sid f)
      = (checkCombinedConditions s₂ sid m k).1 (flagKey sid f) := by
  have h1 := h .powerBackupMode
  have h3 := h .alarmMeterDevice
  simp only [flagKey, Flag.keySuffix] at h1 h3
  unfold checkCombinedConditions
  rw [h1, h3]
  cases s₂ (sid ++ "_ALARM_METER_DEVICE") with
  | none => exact ⟨by trivial, h⟩
  | some bA =>
    cases s₂ (sid ++ "_POWER_BACKUP_MODE") with
    | none => exact ⟨by trivial, h⟩
    | some bB =>
      dsimp only []
      by_cases hc : (bA && bB) = true
      · simp only [if_pos hc]
        exact hpp_congr s₁ s₂ sid m k h
      · simp only [if_neg hc]
        exact ⟨by trivial, h⟩

/-- step reads and writes the state store only at the processed sender's
four keys: two stores that agree there produce identical emissions and
states that keep agreeing there. -/
theorem step_congr (e : Event) (s₁ s₂ : Store)
    (h : ∀ f : Flag, s₁ (flagKey e.sender f) = s₂ (flagKey e.sender f)) :
    (step s₁ e).emits = (step s₂ e).emits ∧
    ∀ f : Flag, (step s₁ e).state (flagKey e.sender f)
      = (step s₂ e).state (flagKey e.sender f) := by
  obtain ⟨sid, k, m⟩ := e
  simp only at h ⊢
  have h1 := h .powerBackupMode
  have h2 := h .powerRestoreMode
  have h3 := h .alarmMeterDevice
  have h4 := h .clearAlarmMeterDevice
  simp only [flagKey, Flag.keySuffix] at h1 h2 h3 h4
  cases k <;> simp only [step]
  case temperature =>
    refine ⟨hTemp_emits_congr s₁ s₂ sid m, fun f => ?_⟩
    rw [hTemp_state, hTemp_state]
    exact h f
  case setTemperature =>
    refine ⟨hSet_emits_congr s₁ s₂ sid m, fun f => ?_⟩
    rw [hSet_state, hSet_state]
    exact h f
  case powerBackupMode =>
    rcases hdec : decodeTs m with _ | ts <;>
      simp only [handlePowerBackupModeEvent, hdec]
    · exact ⟨by trivial, h⟩
    · have hstore : ∀ f : Flag,
          (Store.store s₁ (sid ++ "_POWER_BACKUP_MODE") true) (flagKey sid f)
            = (Store.store s₂ (sid ++ "_POWER_BACKUP_MODE") true) (flagKey sid f) := by
        intro f
        cases f <;> simp [flagKey, Flag.keySuffix, Store.store, h1, h2, h3, h4]
      obtain ⟨hem, hst⟩ := ccc_congr _ _ sid m .powerBackupMode hstore
      exact ⟨by rw [hem], hst⟩
  case powerRestoreMode =>
    rcases hdec : decodeTs m with _ | ts <;>
      simp only [handlePowerRestoreModeEvent, hdec]
    · exact ⟨by trivial, h⟩
    · have hstore : ∀ f : Flag,
          (Store.store s₁ (sid ++ "_POWER_RESTORE_MODE") true) (flagKey sid f)
            = (Store.store s₂ (sid ++ "_POWER_RESTORE_MODE") true) (flagKey sid f) := by
        intro f
        cases f <;> simp [flagKey, Flag.keySuffix, Store.store, h1, h2, h3, h4]
      obtain ⟨hem, hst⟩ := ccc_congr _ _ sid m .powerRestoreMode hstore
      exact ⟨by rw [hem], hst⟩
  case alarmMeterDevice =>
    rcases hdec : decodeTs m with _ | ts <;>
      simp only [handleAlarmMeterDeviceEvent, hdec]
    · exact ⟨by trivial, h⟩
    · have hstore : ∀ f : Flag,
          (Store.store s₁ (sid ++ "_ALARM_METER_DEVICE") true) (flagKey sid f)
            = (Store.store s₂ (sid ++ "_ALARM_METER_DEVICE") true) (flagKey sid f) := by
        intro f
        cases f <;> simp [flagKey, Flag.keySuffix, Store.store, h1, h2, h3, h4]
      obtain ⟨hem, hst⟩ := ccc_congr _ _ sid m .alarmMeterDevice hstore
      exact ⟨by rw [hem], hst⟩
  case clearAlarmMeterDevice =>
    rcases hdec : decodeTs m with _ | ts <;>
      simp only [handleClearAlarmMeterDeviceEvent, hdec]
    · exact ⟨by trivial, h⟩
    · have hstore : ∀ f : Flag,
          (Store.store s₁ (sid ++ "_ALARM_METER_DEVICE") true) (flagKey sid f)
            = (Store.store s₂ (sid ++ "_ALARM_METER_DEVICE") true) (flagKey sid f) := by
        intro f
        cases f <;> simp [flagKey, Flag.keySuffix, Store.store, h1, h2, h3, h4]
      obtain ⟨hem, hst⟩ := ccc_congr _ _ sid m .clearAlarmMeterDevice hstore
      exact ⟨by rw [hem], hst⟩

end Modem

namespace Modem

/-- Key spaces of two senders are disjoint unless one id is the other
extended by "_CLEAR". -/
theorem flagKey_disjoint {a b : String} (hab : b ≠ a) (h1 : b ≠ a ++ "_CLEAR")
    (h2 : a ≠ b ++ "_CLEAR") (f g : Flag) : flagKey b f ≠ flagKey a g := by
  intro h
  rcases flagKey_eq_cases h with ⟨hba, _⟩ | ⟨ha2, _, _⟩ | ⟨hb2, _, _⟩
  · exact hab hba
  · exact h2 ha2
  · exact h1 hb2

/-- Two-run noninterference: when the key spaces of a and b cannot collide,
deleting a's events from a trace of a/b events changes neither the records
emitted for b nor any state outside a's keys. -/
theorem run_filter_agree (a b : String) (hab : a ≠ b)
    (hdisj : ∀ f g : Flag, flagKey b f ≠ flagKey a g) :
    ∀ es : List Event, (∀ e ∈ es, e.sender = a ∨ e.sender = b) →
    ∀ s₁ s₂ : Store, (∀ q, (∀ f : Flag, q ≠ flagKey a f) → s₁ q = s₂ q) →
    (run s₁ (es.filter (fun e => e.sender == b))).2.filter (fun r => r.sumber == b)
      = (run s₂ es).2.filter (fun r => r.sumber == b)
    ∧ ∀ q, (∀ f : Flag, q ≠ flagKey a f) →
        (run s₁ (es.filter (fun e => e.sender == b))).1 q = (run s₂ es).1 q := by
  intro es
  induction es with
  | nil => exact fun _ s₁ s₂ hag => ⟨rfl, hag⟩
  | cons e es ih =>
    intro hes s₁ s₂ hag
    have hes' : ∀ x ∈ es, x.sender = a ∨ x.sender = b := fun x hx =>
      hes x (List.mem_cons_of_mem e hx)
    rcases hes e (List.mem_cons_self e es) with ha | hb
    · -- e belongs to a: it is dropped from the filtered trace
      have hfe : (e.sender == b) = false := by
        rw [ha]; exact beq_eq_false_iff_ne.mpr hab
      have hag' : ∀ q, (∀ f : Flag, q ≠ flagKey a f) → s₁ q = (step s₂ e).state q := by
        intro q hq
        rw [hag q hq]
        refine (step_frame s₂ e q ?_).symm
        rw [ha]; exact hq
      obtain ⟨hrec, hst⟩ := ih hes' s₁ (step s₂ e).state hag'
      have hemits : ((step s₂ e).emits.filter (fun r => r.sumber == b)) = [] := by
        rw [List.filter_eq_nil_iff]
        intro r hr
        have hs := step_emits_sumber s₂ e r hr
        rw [hs, ha]
        simp [hab]
      constructor
      · rw [List.filter_cons, hfe]
        simp only [run, List.filter_append, hemits, List.nil_append]
        exact hrec
      · intro q hq
        rw [List.filter_cons, hfe]
        simp only [run]
        exact hst q hq
    · -- e belongs to b: both runs take the step
      have hfe : (e.sender == b) = true := by rw [hb]; simp
      have hagk : ∀ f : Flag, s₁ (flagKey e.sender f) = s₂ (flagKey e.sender f) := by
        intro f
        rw [hb]
        exact hag _ (fun g => hdisj f g)
      obtain ⟨hem, hkeys⟩ := step_congr e s₁ s₂ hagk
      have hag' : ∀ q, (∀ f : Flag, q ≠ flagKey a f) →
          (step s₁ e).state q = (step s₂ e).state q := by
        intro q hq
        by_cases hqb : q = flagKey e.sender .powerBackupMode ∨
          q = flagKey e.sender .powerRestoreMode ∨
          q = flagKey e.sender .alarmMeterDevice ∨
          q = flagKey e.sender .clearAlarmMeterDevice
        · rcases hqb with h | h | h | h <;> (subst h; exact hkeys _)
        · push_neg at hqb
          obtain ⟨n1, n2, n3, n4⟩ := hqb
          have hnf : ∀ f : Flag, q ≠ flagKey e.sender f := by
            intro f; cases f <;> assumption
          rw [step_frame s₁ e q hnf, step_frame s₂ e q hnf]
          exact hag q hq
      obtain ⟨hrec, hst⟩ := ih hes' (step s₁ e).state (step s₂ e).state hag'
      constructor
      · rw [List.filter_cons, hfe]
        simp only [run, List.filter_append]
        rw [hem, hrec]
      · intro q hq
        rw [List.filter_cons, hfe]
        simp only [run]
        exact hst q hq

end Modem

namespace Modem

/-- Claim C6, amended: isolation holds between senders a and b provided
neither id is the other extended by "_CLEAR" (the single collision of the
concatenated key scheme): dropping a's events from any trace of a/b events
changes neither the records emitted for b nor b's four flag keys. -/
theorem c6_amended (a b : String) (hab : a ≠ b) (h1 : b ≠ a ++ "_CLEAR")
    (h2 : a ≠ b ++ "_CLEAR") (es : List Event)
    (hes : ∀ e ∈ es, e.sender = a ∨ e.sender = b) :
    (run Store.empty (es.filter (fun e => e.sender == b))).2.filter (fun r => r.sumber == b)
      = (run Store.empty es).2.filter (fun r => r.sumber == b)
    ∧ (flagList.all (fun f =>
        (run Store.empty (es.filter (fun e => e.sender == b))).1 (flagKey b f)
          == (run Store.empty es).1 (flagKey b f))) = true := by
  have hdisj := flagKey_disjoint (Ne.symm hab) h1 h2
  obtain ⟨hrec, hst⟩ :=
    run_filter_agree a b hab hdisj es hes Store.empty Store.empty (fun _ _ => rfl)
  refine ⟨hrec, ?_⟩
  rw [List.all_eq_true]
  intro f hf
  rw [beq_iff_eq]
  exact hst (flagKey b f) (fun g => hdisj f g)

/-- Claim C6 witness: dropping "A"'s event from a concrete trace leaves
"B"'s records and flags unchanged. -/
theorem c6_amended_witness :
    ((run Store.empty ([⟨"A", .powerBackupMode, sampleMsg⟩, ⟨"B", .powerBackupMode, sampleMsg⟩,
        ⟨"B", .alarmMeterDevice, sampleMsg⟩].filter (fun e => e.sender == "B"))).2.filter
          (fun r => r.sumber == "B")
      = (run Store.empty [⟨"A", .powerBackupMode, sampleMsg⟩, ⟨"B", .powerBackupMode, sampleMsg⟩,
        ⟨"B", .alarmMeterDevice, sampleMsg⟩]).2.filter (fun r => r.sumber == "B"))
    ∧ (flagList.all (fun f =>
        (run Store.empty ([⟨"A", .powerBackupMode, sampleMsg⟩, ⟨"B", .powerBackupMode, sampleMsg⟩,
            ⟨"B", .alarmMeterDevice, sampleMsg⟩].filter (fun e => e.sender == "B"))).1 (flagKey "B" f)
          == (run Store.empty [⟨"A", .powerBackupMode, sampleMsg⟩, ⟨"B", .powerBackupMode, sampleMsg⟩,
            ⟨"B", .alarmMeterDevice, sampleMsg⟩]).1 (flagKey "B" f))) = true :=
  c6_amended "A" "B" (by decide) (by decide) (by decide) _ (by decide)

end Modem
